import Mathlib

/-!
# Parameter derivation of the PCMC SEPIC converter (`pcmc_setup.X/h/globals.h`)

The header `globals.h` turns physical settings (clock frequencies, voltages,
delays) into the integer register values used by the power controller.  Every
derived value is a C preprocessor macro of the shape `(uint16_t)(<real expression>)`.

Embedding:

* real-valued (`double`/`float`) sub-expressions are evaluated in exact rational
  arithmetic (`ℚ`); the `(float)` and `(double)` casts are the identity there;
* three macros are in addition evaluated the way the C expression is, in IEEE 754
  binary64 with every literal and every operation rounded to nearest, ties to even
  (suffix `_f64`): statements that range over a setting of these macros depend on
  that rounding;
* `pow(2.0, n)` with the header's integral exponents is `2 ^ n`;
* the `(uint16_t)` cast of a real value discards the fractional part
  (truncation toward zero); C leaves the conversion undefined when the
  integral part is not representable in 16 bits, which is `none` here;
* a macro that uses another derived macro reads its `uint16_t` value, so the
  dependency is an `Option.bind`;
* where a statement ranges over a user setting, the macro is also given as a
  function of that setting (suffix `_of` for the evaluation in exact arithmetic),
  and the header's macro is that function at the header's setting.
-/

namespace Globals

/-! ## Conversion of a real value to `uint16_t` -/

/-- Integral part of a real value: rounding toward zero, as a C conversion from a
floating type to an integer type does. -/
def truncZero (x : ℚ) : ℤ := if 0 ≤ x then ⌊x⌋ else ⌈x⌉

/-- The cast `(uint16_t)x` of a real value: its integral part, when that is
representable in 16 bits (otherwise the conversion is undefined in C). -/
def castU16 (x : ℚ) : Option ℕ :=
  if 0 ≤ truncZero x ∧ truncZero x ≤ 65535 then some (truncZero x).toNat else none

/-- The library call `pow(2.0, n)` for an integral exponent. -/
def pow2 (n : ℕ) : ℚ := 2 ^ n

/-! ## Device clock settings -/

/-- CPU frequency in [Hz]. -/
def CPU_FREQUENCY : ℚ := 100000000
/-- Auxiliary clock frequency in [Hz]. -/
def AUX_FREQUENCY : ℚ := 400000000
/-- PWM generator base clock frequency in [Hz]. -/
def PWM_FREQUENCY : ℚ := 400000000

/-! ## ADC settings -/

/-- ADC reference voltage in V. -/
def ADC_REF : ℚ := 3.300
/-- ADC resolution in [bit]. -/
def ADC_RES : ℕ := 12
/-- ADC granularity in [V/tick]: `(float)(ADC_REF / pow(2.0, ADC_RES))`. -/
def ADC_GRAN : ℚ := ADC_REF / pow2 ADC_RES

/-! ## DAC settings -/

/-- Minimum DAC voltage in [V]. -/
def DAC_MINIMUM : ℚ := 0.650
/-- Maximum DAC voltage in [V]. -/
def DAC_MAXIMUM : ℚ := 3.100
/-- Compensation ramp in [V/usec]. -/
def SLEW_RATE : ℚ := 0.100

/-- DAC reference voltage. -/
def DAC_REF : ℚ := 3.300
/-- DAC resolution in [bit]. -/
def DAC_RES : ℕ := 12
/-- DAC granularity in [V/tick]: `(double)(DAC_REF / pow(2, DAC_RES))`. -/
def DAC_GRAN : ℚ := DAC_REF / pow2 DAC_RES
/-- DAC input clock in Hz. -/
def FDAC : ℚ := AUX_FREQUENCY
/-- DAC input clock period in [sec]: `(double)(2.0/FDAC)`. -/
def DACCLK : ℚ := 2.0 / FDAC

/-- Comparator blanking period applied when the DAC reference changes. -/
def DAC_CBLANK_TIME : ℚ := 100e-9
/-- Transition mode duration. -/
def DAC_T_RESET : ℚ := 300e-9
/-- Time from start of transition mode until the steady-state filter is enabled. -/
def DAC_T_SETTLING : ℚ := 350e-9

/-- The macro `DAC_MIN` as a function of the setting `DAC_MINIMUM`, evaluated in exact
arithmetic: `(uint16_t)(DAC_MINIMUM / DAC_GRAN)`. -/
def DAC_MIN_of (dac_minimum : ℚ) : Option ℕ := castU16 (dac_minimum / DAC_GRAN)
/-- The macro `DAC_MAX` as a function of the setting `DAC_MAXIMUM`, evaluated in exact
arithmetic: `(uint16_t)(DAC_MAXIMUM / DAC_GRAN)`. -/
def DAC_MAX_of (dac_maximum : ℚ) : Option ℕ := castU16 (dac_maximum / DAC_GRAN)
/-- The real value under the cast of `DAC_SLOPE_RATE`, as a function of `SLEW_RATE`:
`(16.0 * (SLEW_RATE / DAC_GRAN) / (1.0e-6/DACCLK)) + 1.0`. -/
def DAC_SLOPE_RATE_real (slew_rate : ℚ) : ℚ :=
  (16.0 * (slew_rate / DAC_GRAN) / (1.0e-6 / DACCLK)) + 1.0
/-- The macro `DAC_SLOPE_RATE` as a function of the setting `SLEW_RATE`, evaluated in
exact arithmetic. -/
def DAC_SLOPE_RATE_of (slew_rate : ℚ) : Option ℕ := castU16 (DAC_SLOPE_RATE_real slew_rate)

/-- The macro `DAC_MIN`. -/
def DAC_MIN : Option ℕ := DAC_MIN_of DAC_MINIMUM
/-- The macro `DAC_MAX`. -/
def DAC_MAX : Option ℕ := DAC_MAX_of DAC_MAXIMUM
/-- SLOPE DATA in [DAC-ticks/CLK-tick]. -/
def DAC_SLOPE_RATE : Option ℕ := DAC_SLOPE_RATE_of SLEW_RATE
/-- Leading edge period for the comparator when the slope re-settles. -/
def DAC_TMCB : Option ℕ := castU16 ((DAC_CBLANK_TIME * FDAC) / 2.0)
/-- Transition mode duration in DAC clock ticks. -/
def DAC_TMODTIME : Option ℕ := castU16 ((DAC_T_RESET * FDAC) / 2.0)
/-- Time until the steady-state filter is enabled, in DAC clock ticks. -/
def DAC_SSTIME : Option ℕ := castU16 ((DAC_T_SETTLING * FDAC) / 2.0)

/-! ## PWM settings -/

/-- Power supply switching frequency in [Hz]. -/
def SWITCHING_FREQUENCY : ℚ := 400e+3
/-- Power supply switching period in [sec]. -/
def SWITCHING_PERIOD : ℚ := 1.0 / SWITCHING_FREQUENCY
/-- PWM resolution. -/
def PWM_RES : ℚ := 1.0 / AUX_FREQUENCY
/-- The macro `PWM_PERIOD`: `(uint16_t)(SWITCHING_PERIOD / PWM_RES)`. -/
def PWM_PERIOD : Option ℕ := castU16 (SWITCHING_PERIOD / PWM_RES)

/-- Maximum duty ratio. -/
def MAXIMUM_DUTY_RATIO : ℚ := 0.80
/-- Leading edge blanking period in [sec]. -/
def LEB_PERIOD : ℚ := 100e-9
/-- Delay until the slope compensation ramp starts. -/
def SLOPE_START_DELAY : ℚ := 100e-9
/-- Delay until the slope compensation ramp stops. -/
def SLOPE_STOP_DELAY : ℚ := 0.80
/-- ADC trigger delay in [sec] used to sample the output voltage. -/
def VOUT_ADC_TRIGGER_DELAY : ℚ := SWITCHING_PERIOD - 800e-9
/-- Switching frequency phase shift of the master PWM in [sec]. -/
def PWM_MASTER_PHASE_SHIFT : ℚ := 0e-9
/-- Switching frequency phase shift of the auxiliary PWM in [sec]. -/
def PWM_AUXILIARY_PHASE_SHIFT : ℚ := 100e-9

/-- The macro `MAX_DUTY_CYCLE`: `(uint16_t)(PWM_PERIOD * MAXIMUM_DUTY_RATIO)`. -/
def MAX_DUTY_CYCLE : Option ℕ :=
  PWM_PERIOD.bind fun p => castU16 ((p : ℚ) * MAXIMUM_DUTY_RATIO)
/-- The macro `PWM_LEB_PERIOD`: `(uint16_t)(LEB_PERIOD / PWM_RES)`. -/
def PWM_LEB_PERIOD : Option ℕ := castU16 (LEB_PERIOD / PWM_RES)
/-- The macro `PWM_MSTR_PHASE_SHIFT`. -/
def PWM_MSTR_PHASE_SHIFT : Option ℕ := castU16 (PWM_MASTER_PHASE_SHIFT / PWM_RES)
/-- The macro `PWM_AUX_PHASE_SHIFT`. -/
def PWM_AUX_PHASE_SHIFT : Option ℕ := castU16 (PWM_AUXILIARY_PHASE_SHIFT / PWM_RES)
/-- The macro `VOUT_ADCTRIG`: `(uint16_t)(VOUT_ADC_TRIGGER_DELAY / PWM_RES)`. -/
def VOUT_ADCTRIG : Option ℕ := castU16 (VOUT_ADC_TRIGGER_DELAY / PWM_RES)
/-- The macro `SLP_TRIG_START`: `(uint16_t)(SLOPE_START_DELAY / PWM_RES)`. -/
def SLP_TRIG_START : Option ℕ := castU16 (SLOPE_START_DELAY / PWM_RES)
/-- The macro `SLP_TRIG_STOP`: `(uint16_t)(PWM_PERIOD * SLOPE_STOP_DELAY)`. -/
def SLP_TRIG_STOP : Option ℕ :=
  PWM_PERIOD.bind fun p => castU16 ((p : ℚ) * SLOPE_STOP_DELAY)

/-- Rising edge dead time. -/
def PWM_DEAD_TIME_RISING : ℕ := 0
/-- Falling edge dead time. -/
def PWM_DEAD_TIME_FALLING : ℕ := 0

/-! ## Hardware abstraction -/

/-- Nominal output voltage. -/
def VOUT_NOMINAL : ℚ := 15.0
/-- Upper voltage divider resistor in kOhm. -/
def VOUT_R1 : ℚ := 2.0 * 2.87
/-- Lower voltage divider resistor in kOhm. -/
def VOUT_R2 : ℚ := 1.0
/-- Feedback divider gain: `(float)((VOUT_R2) / (VOUT_R1 + VOUT_R2))`. -/
def VOUT_FB_GAIN : ℚ := VOUT_R2 / (VOUT_R1 + VOUT_R2)
/-- The macro `V_OUT_REF`: `(uint16_t)(VOUT_NOMINAL * VOUT_FB_GAIN / ADC_GRAN)`. -/
def V_OUT_REF : Option ℕ := castU16 (VOUT_NOMINAL * VOUT_FB_GAIN / ADC_GRAN)

/-! ## State machine settings -/

/-- Main state machine pace period in [sec]. -/
def MAIN_EXECUTION_PERIOD : ℚ := 100e-6
/-- The macro `MAIN_EXEC_PER`: `(uint16_t)((CPU_FREQUENCY * MAIN_EXECUTION_PERIOD)-1.0)`. -/
def MAIN_EXEC_PER : Option ℕ := castU16 ((CPU_FREQUENCY * MAIN_EXECUTION_PERIOD) - 1.0)

/-! ## Startup behaviour -/

/-- Power on delay in [sec]. -/
def POWER_ON_DELAY : ℚ := 500e-3
/-- Ramp period in [sec]. -/
def RAMP_PERIOD : ℚ := 50e-3
/-- Power good delay in [sec]. -/
def POWER_GOOD_DELAY : ℚ := 100e-3

/-- The macro `POD`: `(uint16_t)((POWER_ON_DELAY * MAIN_EXECUTION_PERIOD)-1.0)`. -/
def POD : Option ℕ := castU16 ((POWER_ON_DELAY * MAIN_EXECUTION_PERIOD) - 1.0)
/-- The macro `RPER`: `(uint16_t)((RAMP_PERIOD * MAIN_EXECUTION_PERIOD)-1.0)`. -/
def RPER : Option ℕ := castU16 ((RAMP_PERIOD * MAIN_EXECUTION_PERIOD) - 1.0)
/-- The macro `PGD`: `(uint16_t)((POWER_GOOD_DELAY * MAIN_EXECUTION_PERIOD)-1.0)`. -/
def PGD : Option ℕ := castU16 ((POWER_GOOD_DELAY * MAIN_EXECUTION_PERIOD) - 1.0)
/-- The macro `REF_STEP` as a function of the register values `V_OUT_REF` and `RPER`:
`(uint16_t)(V_OUT_REF / (RPER + 1.0))`. -/
def REF_STEP_of (v_out_ref rper : ℕ) : Option ℕ :=
  castU16 ((v_out_ref : ℚ) / ((rper : ℚ) + 1.0))
/-- The macro `REF_STEP`. -/
def REF_STEP : Option ℕ :=
  V_OUT_REF.bind fun v => RPER.bind fun r => REF_STEP_of v r

/-! ## External reference voltage input -/

/-- Lower output voltage limit in [V]. -/
def V_REF_MINIMUM : ℚ := 0.0
/-- Upper output voltage limit in [V]. -/
def V_REF_MAXIMUM : ℚ := 3.3
/-- The macro `V_REF_MIN`: `(uint16_t)(V_REF_MINIMUM * 1.0 / ADC_GRAN)`. -/
def V_REF_MIN : Option ℕ := castU16 (V_REF_MINIMUM * 1.0 / ADC_GRAN)
/-- The macro `V_REF_MAX`: `(uint16_t)(V_REF_MAXIMUM * 1.0 / ADC_GRAN)`. -/
def V_REF_MAX : Option ℕ := castU16 (V_REF_MAXIMUM * 1.0 / ADC_GRAN)

/-- The macro `V_REF_DIFF`: `(V_REF_MAX - V_REF_MIN)`, a difference of two `uint16_t`
values, computed modulo `2^16` on the 16-bit target. -/
def V_REF_DIFF : Option ℕ :=
  V_REF_MAX.bind fun hi => V_REF_MIN.bind fun lo =>
    some ((((hi : ℤ) - (lo : ℤ)) % 65536).toNat)

/-- Enable/disable the external reference voltage input. -/
def USE_EXTERNAL_REFERENCE : Bool := true

/-- Output voltage feedback offset. -/
def VOUT_FEEDBACK_OFFSET : ℕ := 0

/-! ## Range of a cast argument -/

/-- A real value is non-negative and below `65536`, so that its `(uint16_t)` cast is
its integral part, without wrap-around or undefined conversion. -/
def inU16Range (x : ℚ) : Prop := 0 ≤ x ∧ x < 65536

/-! ## Evaluation in binary64

The C type `double` is taken as IEEE 754 binary64: 53 significant bits, least normal
exponent `-1022`, every decimal literal and every arithmetic result rounded to
nearest with ties to even, and a result of magnitude `2^1024` or more replaced by an
infinity (`none` here, as its conversion to `uint16_t` is undefined).  Literals with
an integral value (`2.0`, `16.0`, `1.0`) and 16-bit integers are exact. -/

theorem truncZero_of_nonneg {x : ℚ} (hx : 0 ≤ x) : truncZero x = ⌊x⌋ := by
  simp [truncZero, hx]

theorem truncZero_nonneg {x : ℚ} (hx : 0 ≤ x) : 0 ≤ truncZero x := by
  rw [truncZero_of_nonneg hx]
  exact Int.floor_nonneg.mpr hx

/-- A value in `[n, n + 1)` has integral part `n`. -/
theorem truncZero_eq_of_mem {x : ℚ} (n : ℕ) (h1 : (n : ℚ) ≤ x) (h2 : x < (n : ℚ) + 1) :
    truncZero x = (n : ℤ) := by
  have hx : (0 : ℚ) ≤ x := le_trans (Nat.cast_nonneg n) h1
  rw [truncZero_of_nonneg hx, Int.floor_eq_iff]
  exact ⟨by exact_mod_cast h1, by exact_mod_cast h2⟩

/-- A value in `(-1, 0]` has integral part `0`. -/
theorem truncZero_eq_zero_of_neg {x : ℚ} (h1 : -1 < x) (h2 : x ≤ 0) : truncZero x = 0 := by
  unfold truncZero
  split
  · have : x = 0 := le_antisymm h2 (by assumption)
    simp [this]
  · rw [Int.ceil_eq_iff]
    exact ⟨by simpa using h1, by simpa using h2⟩

/-- The cast of a value in `[n, n + 1)` with `n` representable is `n`. -/
theorem castU16_eq_some {x : ℚ} (n : ℕ) (hn : n ≤ 65535) (h1 : (n : ℚ) ≤ x)
    (h2 : x < (n : ℚ) + 1) : castU16 x = some n := by
  have ht := truncZero_eq_of_mem n h1 h2
  have hn' : (n : ℤ) ≤ 65535 := by exact_mod_cast hn
  simp [castU16, ht, hn']

/-- The cast of a value in `(-1, 0]` is `0`. -/
theorem castU16_eq_zero_of_neg {x : ℚ} (h1 : -1 < x) (h2 : x ≤ 0) : castU16 x = some 0 := by
  simp [castU16, truncZero_eq_zero_of_neg h1 h2]

/-- A defined cast is the integral part of its argument. -/
theorem castU16_eq_some_iff {x : ℚ} {n : ℕ} :
    castU16 x = some n ↔ truncZero x = (n : ℤ) ∧ n ≤ 65535 := by
  unfold castU16
  constructor
  · intro h
    split at h
    · rename_i hc
      have hn : (truncZero x).toNat = n := by simpa using h
      have h0 : ((truncZero x).toNat : ℤ) = truncZero x := Int.toNat_of_nonneg hc.1
      rw [hn] at h0
      refine ⟨h0.symm, ?_⟩
      have := hc.2
      rw [← h0] at this
      exact_mod_cast this
    · simp at h
  · rintro ⟨h, hn⟩
    have hn' : (n : ℤ) ≤ 65535 := by exact_mod_cast hn
    simp [h, hn']

/-- The integral part is monotone. -/
theorem truncZero_mono {x y : ℚ} (hxy : x ≤ y) : truncZero x ≤ truncZero y := by
  unfold truncZero
  split <;> split
  · exact Int.floor_le_floor hxy
  · rename_i hx hy
    exact absurd (le_trans hx hxy) hy
  · rename_i hx hy
    have hx' : x < 0 := not_le.mp hx
    have h1 : ⌈x⌉ ≤ 0 := Int.ceil_le.mpr (by simpa using hx'.le)
    exact le_trans h1 (Int.floor_nonneg.mpr hy)
  · exact Int.ceil_le_ceil hxy

theorem PWM_PERIOD_eq : PWM_PERIOD = some 1000 := by
  unfold PWM_PERIOD
  apply castU16_eq_some 1000 (by norm_num) <;>
    norm_num [SWITCHING_PERIOD, PWM_RES, SWITCHING_FREQUENCY, AUX_FREQUENCY]

theorem V_OUT_REF_eq : V_OUT_REF = some 2762 := by
  unfold V_OUT_REF
  apply castU16_eq_some 2762 (by norm_num) <;>
    norm_num [VOUT_NOMINAL, VOUT_FB_GAIN, VOUT_R1, VOUT_R2, ADC_GRAN, ADC_REF, ADC_RES, pow2]

theorem POD_eq : POD = some 0 := by
  unfold POD
  apply castU16_eq_zero_of_neg <;> norm_num [POWER_ON_DELAY, MAIN_EXECUTION_PERIOD]

theorem RPER_eq : RPER = some 0 := by
  unfold RPER
  apply castU16_eq_zero_of_neg <;> norm_num [RAMP_PERIOD, MAIN_EXECUTION_PERIOD]

theorem PGD_eq : PGD = some 0 := by
  unfold PGD
  apply castU16_eq_zero_of_neg <;> norm_num [POWER_GOOD_DELAY, MAIN_EXECUTION_PERIOD]

/-- The step macro is the natural-number quotient of its two register values. -/
theorem REF_STEP_of_eq (v r : ℕ) (hv : v ≤ 65535) : REF_STEP_of v r = some (v / (r + 1)) := by
  unfold REF_STEP_of
  have hpos : (0 : ℚ) < ((r + 1 : ℕ) : ℚ) := by exact_mod_cast Nat.succ_pos r
  have hden : ((r : ℚ) + 1.0) = ((r + 1 : ℕ) : ℚ) := by push_cast; norm_num
  rw [hden]
  have hle : v / (r + 1) ≤ v := Nat.div_le_self v (r + 1)
  apply castU16_eq_some (v / (r + 1)) (le_trans hle hv)
  · rw [le_div_iff₀ hpos]
    exact_mod_cast Nat.div_mul_le_self v (r + 1)
  · rw [div_lt_iff₀ hpos]
    have hdm := Nat.div_add_mod v (r + 1)
    have hm := Nat.mod_lt v (Nat.succ_pos r)
    have h2 : v < (v / (r + 1) + 1) * (r + 1) := by
      calc v = (r + 1) * (v / (r + 1)) + v % (r + 1) := hdm.symm
        _ < (r + 1) * (v / (r + 1)) + (r + 1) := Nat.add_lt_add_left hm _
        _ = (v / (r + 1) + 1) * (r + 1) := by ring
    exact_mod_cast h2

theorem REF_STEP_eq : REF_STEP = some 2762 := by
  simp [REF_STEP, V_OUT_REF_eq, RPER_eq, REF_STEP_of_eq]

/-! ## Startup timing (soft-start schedule) -/

/-- C1 (evaluation of the code): the macros `POD`, `RPER` and `PGD` multiply the delay
by the tick period instead of dividing by it, so each one is the cast of a value in
`(-1, 0)` and evaluates to `0`: the schedule has `POD + 1 = RPER + 1 = PGD + 1 = 1`
tick, whereas the delays last `5000`, `500` and `1000` tick periods, and
`(POD + 1) * MAIN_EXECUTION_PERIOD` is not `POWER_ON_DELAY` (likewise for the ramp
period and the power-good delay). -/
theorem startup_ticks_evaluate_to_zero :
    ∃ pod rper pgd : ℕ, POD = some pod ∧ RPER = some rper ∧ PGD = some pgd ∧
      pod = 0 ∧ rper = 0 ∧ pgd = 0 ∧
      ((pod : ℚ) + 1) * MAIN_EXECUTION_PERIOD ≠ POWER_ON_DELAY ∧
      ((rper : ℚ) + 1) * MAIN_EXECUTION_PERIOD ≠ RAMP_PERIOD ∧
      ((pgd : ℚ) + 1) * MAIN_EXECUTION_PERIOD ≠ POWER_GOOD_DELAY ∧
      POWER_ON_DELAY / MAIN_EXECUTION_PERIOD = 5000 ∧
      RAMP_PERIOD / MAIN_EXECUTION_PERIOD = 500 ∧
      POWER_GOOD_DELAY / MAIN_EXECUTION_PERIOD = 1000 := by
  refine ⟨0, 0, 0, POD_eq, RPER_eq, PGD_eq, rfl, rfl, rfl, ?_, ?_, ?_, ?_, ?_, ?_⟩ <;>
    norm_num [MAIN_EXECUTION_PERIOD, POWER_ON_DELAY, RAMP_PERIOD, POWER_GOOD_DELAY]

/-- C2: `REF_STEP` is the target divided by the ramp tick count.  For all `uint16_t`
register values `v` of `V_OUT_REF` and `r` of `RPER`, the divisor `r + 1.0` is
strictly positive, the macro is defined and equals the integral part of
`v / (r + 1)`, which is the quotient `v / (r + 1)` of the natural numbers; for the
header's values `REF_STEP` is at least `1` and at most `V_OUT_REF`. -/
theorem REF_STEP_is_target_div_ramp_ticks (v r : ℕ) (hv : v ≤ 65535) :
    (0 : ℚ) < (r : ℚ) + 1.0 ∧
    REF_STEP_of v r = some (v / (r + 1)) ∧
    truncZero ((v : ℚ) / ((r : ℚ) + 1.0)) = ((v / (r + 1) : ℕ) : ℤ) ∧
    ∃ t k s : ℕ, V_OUT_REF = some t ∧ RPER = some k ∧ REF_STEP = some s ∧
      REF_STEP_of t k = some s ∧ 1 ≤ s ∧ s ≤ t := by
  have hpos : (0 : ℚ) < (r : ℚ) + 1.0 := by
    have : (0 : ℚ) ≤ (r : ℚ) := Nat.cast_nonneg r
    norm_num
    linarith
  have hstep := REF_STEP_of_eq v r hv
  refine ⟨hpos, hstep, ?_, 2762, 0, 2762, V_OUT_REF_eq, RPER_eq, REF_STEP_eq, ?_, ?_, ?_⟩
  · exact (castU16_eq_some_iff.mp hstep).1
  · simpa using REF_STEP_of_eq 2762 0 (by norm_num)
  · norm_num
  · norm_num

/-- Witness of C2 at the header's register values `V_OUT_REF = 2762`, `RPER = 0`. -/
theorem REF_STEP_is_target_div_ramp_ticks_witness :
    (2762 ≤ 65535) ∧
    ((0 : ℚ) < ((0 : ℕ) : ℚ) + 1.0 ∧
    REF_STEP_of 2762 0 = some (2762 / (0 + 1)) ∧
    truncZero (((2762 : ℕ) : ℚ) / (((0 : ℕ) : ℚ) + 1.0)) = ((2762 / (0 + 1) : ℕ) : ℤ) ∧
    ∃ t k s : ℕ, V_OUT_REF = some t ∧ RPER = some k ∧ REF_STEP = some s ∧
      REF_STEP_of t k = some s ∧ 1 ≤ s ∧ s ≤ t) :=
  ⟨by decide, REF_STEP_is_target_div_ramp_ticks 2762 0 (by decide)⟩

/-! ## Supervisory tick and switching cycle -/

theorem MAIN_EXEC_PER_eq : MAIN_EXEC_PER = some 9999 := by
  unfold MAIN_EXEC_PER
  apply castU16_eq_some 9999 (by norm_num) <;>
    norm_num [CPU_FREQUENCY, MAIN_EXECUTION_PERIOD]

/-- C4 (as stated, refuted): `MAIN_EXEC_PER` is `9999`, and `9999` CPU clock cycles at
`CPU_FREQUENCY` take `99.99e-6` s, which is not `MAIN_EXECUTION_PERIOD`. -/
theorem MAIN_EXEC_PER_cycles_ne_period :
    MAIN_EXEC_PER = some 9999 ∧
    ((9999 : ℕ) : ℚ) / CPU_FREQUENCY = 99.99e-6 ∧
    ((9999 : ℕ) : ℚ) / CPU_FREQUENCY ≠ MAIN_EXECUTION_PERIOD := by
  refine ⟨MAIN_EXEC_PER_eq, ?_, ?_⟩ <;> norm_num [CPU_FREQUENCY, MAIN_EXECUTION_PERIOD]

/-- C4 (amended): `MAIN_EXEC_PER` is the period-register value, one less than the
number of CPU clock cycles of a supervisory tick: `MAIN_EXEC_PER = 9999`, and
`MAIN_EXEC_PER + 1` CPU clock cycles at `CPU_FREQUENCY = 100 MHz` take exactly
`MAIN_EXECUTION_PERIOD = 100e-6` s. -/
theorem MAIN_EXEC_PER_succ_cycles_eq_period :
    ∃ m : ℕ, MAIN_EXEC_PER = some m ∧ m = 9999 ∧
      ((m : ℚ) + 1) / CPU_FREQUENCY = MAIN_EXECUTION_PERIOD ∧
      MAIN_EXECUTION_PERIOD = 100e-6 ∧ CPU_FREQUENCY = 100000000 := by
  refine ⟨9999, MAIN_EXEC_PER_eq, rfl, ?_, ?_, ?_⟩ <;>
    norm_num [CPU_FREQUENCY, MAIN_EXECUTION_PERIOD]

/-- C5: the switching cycle is 2.5 µs and is represented without truncation loss:
`SWITCHING_PERIOD / PWM_RES` is exactly `1000`, `PWM_PERIOD = 1000` ticks, and
`PWM_PERIOD * PWM_RES = 1 / SWITCHING_FREQUENCY = 2.5e-6` s. -/
theorem PWM_PERIOD_exact :
    ∃ p : ℕ, PWM_PERIOD = some p ∧ p = 1000 ∧
      SWITCHING_PERIOD / PWM_RES = (p : ℚ) ∧
      (p : ℚ) * PWM_RES = 1 / SWITCHING_FREQUENCY ∧
      1 / SWITCHING_FREQUENCY = 2.5e-6 := by
  refine ⟨1000, PWM_PERIOD_eq, rfl, ?_, ?_, ?_⟩ <;>
    norm_num [SWITCHING_PERIOD, PWM_RES, SWITCHING_FREQUENCY, AUX_FREQUENCY]

theorem VOUT_ADCTRIG_eq : VOUT_ADCTRIG = some 680 := by
  unfold VOUT_ADCTRIG
  apply castU16_eq_some 680 (by norm_num) <;>
    norm_num [VOUT_ADC_TRIGGER_DELAY, SWITCHING_PERIOD, PWM_RES, SWITCHING_FREQUENCY,
      AUX_FREQUENCY]

theorem SLP_TRIG_START_eq : SLP_TRIG_START = some 40 := by
  unfold SLP_TRIG_START
  apply castU16_eq_some 40 (by norm_num) <;>
    norm_num [SLOPE_START_DELAY, PWM_RES, AUX_FREQUENCY]

theorem SLP_TRIG_STOP_eq : SLP_TRIG_STOP = some 800 := by
  simp only [SLP_TRIG_STOP, PWM_PERIOD_eq, Option.some_bind]
  apply castU16_eq_some 800 (by norm_num) <;> norm_num [SLOPE_STOP_DELAY]

/-- C6: the ADC trigger point and the slope-start and slope-stop triggers lie within
`[0, period)`: `VOUT_ADCTRIG = 680`, `SLP_TRIG_START = 40` and `SLP_TRIG_STOP = 800`
(each the exact value of its real expression) are non-negative and below
`PWM_PERIOD = 1000`. -/
theorem triggers_within_period :
    ∃ p t a b : ℕ, PWM_PERIOD = some p ∧ VOUT_ADCTRIG = some t ∧
      SLP_TRIG_START = some a ∧ SLP_TRIG_STOP = some b ∧
      p = 1000 ∧ t = 680 ∧ a = 40 ∧ b = 800 ∧
      (0 ≤ t ∧ t < p) ∧ (0 ≤ a ∧ a < p) ∧ (0 ≤ b ∧ b < p) ∧
      VOUT_ADC_TRIGGER_DELAY / PWM_RES = (t : ℚ) ∧
      SLOPE_START_DELAY / PWM_RES = (a : ℚ) ∧
      (p : ℚ) * SLOPE_STOP_DELAY = (b : ℚ) := by
  refine ⟨1000, 680, 40, 800, PWM_PERIOD_eq, VOUT_ADCTRIG_eq, SLP_TRIG_START_eq,
    SLP_TRIG_STOP_eq, rfl, rfl, rfl, rfl, by norm_num, by norm_num, by norm_num, ?_, ?_, ?_⟩ <;>
    norm_num [VOUT_ADC_TRIGGER_DELAY, SLOPE_START_DELAY, SLOPE_STOP_DELAY, SWITCHING_PERIOD,
      PWM_RES, SWITCHING_FREQUENCY, AUX_FREQUENCY]

/-! ## Threshold trajectory (comparator DAC) -/

theorem DAC_GRAN_pos : (0 : ℚ) < DAC_GRAN := by
  norm_num [DAC_GRAN, DAC_REF, DAC_RES, pow2]

theorem DAC_MIN_eq : DAC_MIN = some 806 := by
  unfold DAC_MIN DAC_MIN_of
  apply castU16_eq_some 806 (by norm_num) <;>
    norm_num [DAC_MINIMUM, DAC_GRAN, DAC_REF, DAC_RES, pow2]

theorem DAC_MAX_eq : DAC_MAX = some 3847 := by
  unfold DAC_MAX DAC_MAX_of
  apply castU16_eq_some 3847 (by norm_num) <;>
    norm_num [DAC_MAXIMUM, DAC_GRAN, DAC_REF, DAC_RES, pow2]

theorem DAC_SLOPE_RATE_eq : DAC_SLOPE_RATE = some 10 := by
  unfold DAC_SLOPE_RATE DAC_SLOPE_RATE_of DAC_SLOPE_RATE_real
  apply castU16_eq_some 10 (by norm_num) <;>
    norm_num [SLEW_RATE, DAC_GRAN, DAC_REF, DAC_RES, pow2, DACCLK, FDAC, AUX_FREQUENCY]

/-- The real value under the cast of `DAC_SLOPE_RATE` is at least `1` for a
non-negative slew rate. -/
theorem one_le_DAC_SLOPE_RATE_real {s : ℚ} (hs : 0 ≤ s) : 1 ≤ DAC_SLOPE_RATE_real s := by
  have hx : 0 ≤ 16.0 * (s / DAC_GRAN) / (1.0e-6 / DACCLK) := by
    have h1 : 0 ≤ s / DAC_GRAN := div_nonneg hs DAC_GRAN_pos.le
    have h2 : (0 : ℚ) ≤ 1.0e-6 / DACCLK := by norm_num [DACCLK, FDAC, AUX_FREQUENCY]
    exact div_nonneg (mul_nonneg (by norm_num) h1) h2
  unfold DAC_SLOPE_RATE_real
  norm_num at hx ⊢
  linarith

/-- C7: the threshold base never exceeds the ceiling.  `DAC_MIN = 806` and
`DAC_MAX = 3847` with `DAC_GRAN = 3.3 / 2^12`, hence `DAC_MIN ≤ DAC_MAX`; and for all
voltages `0 ≤ a ≤ b` taken as `DAC_MINIMUM` and `DAC_MAXIMUM`, the truncated tick
values satisfy `trunc(a / DAC_GRAN) ≤ trunc(b / DAC_GRAN)`, and whenever the ceiling
macro is defined at `b` the base macro is defined at `a` and does not exceed it. -/
theorem DAC_MIN_le_DAC_MAX (a b : ℚ) (ha : 0 ≤ a) (hab : a ≤ b) :
    (∃ lo hi : ℕ, DAC_MIN = some lo ∧ DAC_MAX = some hi ∧ lo = 806 ∧ hi = 3847 ∧ lo ≤ hi) ∧
    DAC_GRAN = 3.3 / 2 ^ 12 ∧
    truncZero (a / DAC_GRAN) ≤ truncZero (b / DAC_GRAN) ∧
    ∀ hi : ℕ, DAC_MAX_of b = some hi → ∃ lo : ℕ, DAC_MIN_of a = some lo ∧ lo ≤ hi := by
  have hmono : truncZero (a / DAC_GRAN) ≤ truncZero (b / DAC_GRAN) :=
    truncZero_mono (div_le_div_of_nonneg_right hab DAC_GRAN_pos.le)
  refine ⟨⟨806, 3847, DAC_MIN_eq, DAC_MAX_eq, rfl, rfl, by norm_num⟩, ?_, hmono, ?_⟩
  · norm_num [DAC_GRAN, DAC_REF, DAC_RES, pow2]
  · intro hi hhi
    obtain ⟨hb, hhi16⟩ := castU16_eq_some_iff.mp hhi
    have h0 : 0 ≤ truncZero (a / DAC_GRAN) := truncZero_nonneg (div_nonneg ha DAC_GRAN_pos.le)
    have hle : truncZero (a / DAC_GRAN) ≤ (hi : ℤ) := hb ▸ hmono
    refine ⟨(truncZero (a / DAC_GRAN)).toNat, ?_, ?_⟩
    · unfold DAC_MIN_of
      rw [castU16_eq_some_iff]
      refine ⟨(Int.toNat_of_nonneg h0).symm, ?_⟩
      omega
    · omega

/-- Witness of C7 at the header's settings `DAC_MINIMUM = 0.650`, `DAC_MAXIMUM = 3.100`. -/
theorem DAC_MIN_le_DAC_MAX_witness :
    (0 : ℚ) ≤ 0.650 ∧ (0.650 : ℚ) ≤ 3.100 ∧
    ((∃ lo hi : ℕ, DAC_MIN = some lo ∧ DAC_MAX = some hi ∧ lo = 806 ∧ hi = 3847 ∧ lo ≤ hi) ∧
    DAC_GRAN = 3.3 / 2 ^ 12 ∧
    truncZero (0.650 / DAC_GRAN) ≤ truncZero (3.100 / DAC_GRAN) ∧
    ∀ hi : ℕ, DAC_MAX_of 3.100 = some hi →
      ∃ lo : ℕ, DAC_MIN_of 0.650 = some lo ∧ lo ≤ hi) :=
  ⟨by norm_num, by norm_num, DAC_MIN_le_DAC_MAX 0.650 3.100 (by norm_num) (by norm_num)⟩

/-- C8: the slope rate is strictly positive.  For the header's values
(`SLEW_RATE = 0.1` V/µs, `DAC_GRAN = 3.3 / 4096` V, `DACCLK = 2 / 400 MHz`)
`DAC_SLOPE_RATE = 10 > 0`; and for every non-negative slew rate `s` the truncated
value `trunc(16 * (s / DAC_GRAN) / (1e-6 / DACCLK) + 1)` is at least `1`, so the
macro is at least `1` wherever its cast is defined, which it is whenever the real
value is below `65536`. -/
theorem DAC_SLOPE_RATE_pos (s : ℚ) (hs : 0 ≤ s) :
    (∃ k : ℕ, DAC_SLOPE_RATE = some k ∧ k = 10 ∧ 0 < k) ∧
    SLEW_RATE = 0.1 ∧ DAC_GRAN = 3.3 / 4096 ∧ DACCLK = 2 / 400000000 ∧
    1 ≤ truncZero (16 * (s / DAC_GRAN) / (1e-6 / DACCLK) + 1) ∧
    (∀ k : ℕ, DAC_SLOPE_RATE_of s = some k → 1 ≤ k) ∧
    (16 * (s / DAC_GRAN) / (1e-6 / DACCLK) + 1 < 65536 →
      ∃ k : ℕ, DAC_SLOPE_RATE_of s = some k ∧ 1 ≤ k) := by
  have hreal : DAC_SLOPE_RATE_real s = 16 * (s / DAC_GRAN) / (1e-6 / DACCLK) + 1 := by
    unfold DAC_SLOPE_RATE_real
    norm_num
  have h1 : 1 ≤ DAC_SLOPE_RATE_real s := one_le_DAC_SLOPE_RATE_real hs
  have ht : 1 ≤ truncZero (DAC_SLOPE_RATE_real s) := by
    have := truncZero_mono h1
    rwa [show truncZero (1 : ℚ) = 1 by simp [truncZero]] at this
  have hdef : ∀ k : ℕ, DAC_SLOPE_RATE_of s = some k → 1 ≤ k := by
    intro k hk
    obtain ⟨hk1, -⟩ := castU16_eq_some_iff.mp hk
    rw [hk1] at ht
    exact_mod_cast ht
  refine ⟨⟨10, DAC_SLOPE_RATE_eq, rfl, by norm_num⟩, ?_, ?_, ?_, hreal ▸ ht, hdef, ?_⟩
  · norm_num [SLEW_RATE]
  · norm_num [DAC_GRAN, DAC_REF, DAC_RES, pow2]
  · norm_num [DACCLK, FDAC, AUX_FREQUENCY]
  · intro hlt
    rw [← hreal] at hlt
    have h0 : (0 : ℚ) ≤ DAC_SLOPE_RATE_real s := le_trans (by norm_num) h1
    have hfl : truncZero (DAC_SLOPE_RATE_real s) < 65536 := by
      rw [truncZero_of_nonneg h0, Int.floor_lt]
      exact_mod_cast hlt
    have hk : DAC_SLOPE_RATE_of s = some (truncZero (DAC_SLOPE_RATE_real s)).toNat := by
      unfold DAC_SLOPE_RATE_of
      rw [castU16_eq_some_iff]
      refine ⟨(Int.toNat_of_nonneg (by omega)).symm, ?_⟩
      omega
    exact ⟨_, hk, hdef _ hk⟩

/-- Witness of C8 at the header's setting `SLEW_RATE = 0.100`. -/
theorem DAC_SLOPE_RATE_pos_witness :
    (0 : ℚ) ≤ 0.100 ∧
    ((∃ k : ℕ, DAC_SLOPE_RATE = some k ∧ k = 10 ∧ 0 < k) ∧
    SLEW_RATE = 0.1 ∧ DAC_GRAN = 3.3 / 4096 ∧ DACCLK = 2 / 400000000 ∧
    1 ≤ truncZero (16 * (0.100 / DAC_GRAN) / (1e-6 / DACCLK) + 1) ∧
    (∀ k : ℕ, DAC_SLOPE_RATE_of 0.100 = some k → 1 ≤ k) ∧
    (16 * (0.100 / DAC_GRAN) / (1e-6 / DACCLK) + 1 < 65536 →
      ∃ k : ℕ, DAC_SLOPE_RATE_of 0.100 = some k ∧ 1 ≤ k)) :=
  ⟨by norm_num, DAC_SLOPE_RATE_pos 0.100 (by norm_num)⟩

/-! ## Target reference and duty ceiling -/

/-- C9: the target reference is the nominal output voltage in ADC ticks of the
feedback signal: with `VOUT_NOMINAL = 15` V, `R1 = 5.74` kOhm, `R2 = 1` kOhm and
`ADC_REF = 3.3` V, `V_OUT_REF` is the integral part of
`VOUT_NOMINAL * (VOUT_R2 / (VOUT_R1 + VOUT_R2)) / (ADC_REF / 2^12)`, which is `2762`,
and it lies inside the 12-bit ADC range: `0 < V_OUT_REF ≤ 4095`. -/
theorem V_OUT_REF_in_adc_range :
    ∃ v : ℕ, V_OUT_REF = some v ∧
      truncZero (VOUT_NOMINAL * (VOUT_R2 / (VOUT_R1 + VOUT_R2)) / (ADC_REF / 2 ^ 12)) = (v : ℤ) ∧
      v = 2762 ∧ 0 < v ∧ v ≤ 4095 ∧
      VOUT_NOMINAL = 15 ∧ VOUT_R1 = 5.74 ∧ VOUT_R2 = 1 ∧ ADC_REF = 3.3 := by
  have hv := V_OUT_REF_eq
  refine ⟨2762, hv, ?_, rfl, by norm_num, by norm_num, ?_, ?_, ?_, ?_⟩
  · have h := (castU16_eq_some_iff.mp hv).1
    simpa [V_OUT_REF, VOUT_FB_GAIN, ADC_GRAN, ADC_RES, pow2] using h
  · norm_num [VOUT_NOMINAL]
  · norm_num [VOUT_R1]
  · norm_num [VOUT_R2]
  · norm_num [ADC_REF]

theorem MAX_DUTY_CYCLE_eq : MAX_DUTY_CYCLE = some 800 := by
  simp only [MAX_DUTY_CYCLE, PWM_PERIOD_eq, Option.some_bind]
  apply castU16_eq_some 800 (by norm_num) <;> norm_num [ MAXIMUM_DUTY_RATIO]

/-! ## External reference input and blanking windows -/

theorem ADC_GRAN_pos : (0 : ℚ) < ADC_GRAN := by
  norm_num [ADC_GRAN, ADC_REF, ADC_RES, pow2]

theorem V_REF_MIN_eq : V_REF_MIN = some 0 := by
  unfold V_REF_MIN
  apply castU16_eq_some 0 (by norm_num) <;>
    norm_num [V_REF_MINIMUM, ADC_GRAN, ADC_REF, ADC_RES, pow2]

theorem V_REF_MAX_eq : V_REF_MAX = some 4096 := by
  unfold V_REF_MAX
  apply castU16_eq_some 4096 (by norm_num) <;>
    norm_num [V_REF_MAXIMUM, ADC_GRAN, ADC_REF, ADC_RES, pow2]

theorem V_REF_DIFF_eq : V_REF_DIFF = some 4096 := by
  simp [V_REF_DIFF, V_REF_MAX_eq, V_REF_MIN_eq]

theorem PWM_LEB_PERIOD_eq : PWM_LEB_PERIOD = some 40 := by
  unfold PWM_LEB_PERIOD
  apply castU16_eq_some 40 (by norm_num) <;>
    norm_num [LEB_PERIOD, PWM_RES, AUX_FREQUENCY]

theorem DAC_TMCB_eq : DAC_TMCB = some 20 := by
  unfold DAC_TMCB
  apply castU16_eq_some 20 (by norm_num) <;>
    norm_num [DAC_CBLANK_TIME, FDAC, AUX_FREQUENCY]

theorem DAC_TMODTIME_eq : DAC_TMODTIME = some 60 := by
  unfold DAC_TMODTIME
  apply castU16_eq_some 60 (by norm_num) <;>
    norm_num [DAC_T_RESET, FDAC, AUX_FREQUENCY]

theorem DAC_SSTIME_eq : DAC_SSTIME = some 70 := by
  unfold DAC_SSTIME
  apply castU16_eq_some 70 (by norm_num) <;>
    norm_num [DAC_T_SETTLING, FDAC, AUX_FREQUENCY]

/-- C11 (evaluation of the code): the macros `V_REF_MIN` and `V_REF_MAX` scale the
output voltage level by the constant `1.0` instead of the divider gain
`VOUT_FB_GAIN = VOUT_R2 / (VOUT_R1 + VOUT_R2)`.  With the header's settings
`V_REF_MIN = 0`, which both formulas give, but `V_REF_MAX = 4096`, whereas
`trunc(V_REF_MAXIMUM * VOUT_FB_GAIN / ADC_GRAN) = 607`. -/
theorem V_REF_limits_ignore_divider_gain :
    ∃ lo hi : ℕ, V_REF_MIN = some lo ∧ V_REF_MAX = some hi ∧ lo = 0 ∧ hi = 4096 ∧
      truncZero (V_REF_MINIMUM * VOUT_FB_GAIN / ADC_GRAN) = (lo : ℤ) ∧
      truncZero (V_REF_MAXIMUM * VOUT_FB_GAIN / ADC_GRAN) = 607 ∧
      truncZero (V_REF_MAXIMUM * VOUT_FB_GAIN / ADC_GRAN) ≠ (hi : ℤ) ∧
      VOUT_FB_GAIN = VOUT_R2 / (VOUT_R1 + VOUT_R2) ∧ ADC_GRAN = ADC_REF / 2 ^ 12 := by
  have h607 : truncZero (V_REF_MAXIMUM * VOUT_FB_GAIN / ADC_GRAN) = 607 := by
    have := truncZero_eq_of_mem (x := V_REF_MAXIMUM * VOUT_FB_GAIN / ADC_GRAN) 607
      (by norm_num [V_REF_MAXIMUM, VOUT_FB_GAIN, VOUT_R1, VOUT_R2, ADC_GRAN, ADC_REF,
        ADC_RES, pow2])
      (by norm_num [V_REF_MAXIMUM, VOUT_FB_GAIN, VOUT_R1, VOUT_R2, ADC_GRAN, ADC_REF,
        ADC_RES, pow2])
    simpa using this
  refine ⟨0, 4096, V_REF_MIN_eq, V_REF_MAX_eq, rfl, rfl, ?_, h607, ?_, rfl, ?_⟩
  · have := truncZero_eq_of_mem (x := V_REF_MINIMUM * VOUT_FB_GAIN / ADC_GRAN) 0
      (by norm_num [V_REF_MINIMUM]) (by norm_num [V_REF_MINIMUM])
    simpa using this
  · rw [h607]
    norm_num
  · norm_num [ADC_GRAN, ADC_RES, pow2]

/-- C13: the three fixed comparator/DAC windows are exact in DAC clock ticks and
nested: `DAC_TMCB = 20`, `DAC_TMODTIME = 60` and `DAC_SSTIME = 70`, each equal to its
duration times `FDAC / 2` with no truncation loss, and
`DAC_TMCB ≤ DAC_TMODTIME ≤ DAC_SSTIME`. -/
theorem DAC_windows_exact_and_nested :
    ∃ b t s : ℕ, DAC_TMCB = some b ∧ DAC_TMODTIME = some t ∧ DAC_SSTIME = some s ∧
      b = 20 ∧ t = 60 ∧ s = 70 ∧
      DAC_CBLANK_TIME * (FDAC / 2) = (b : ℚ) ∧
      DAC_T_RESET * (FDAC / 2) = (t : ℚ) ∧
      DAC_T_SETTLING * (FDAC / 2) = (s : ℚ) ∧
      b ≤ t ∧ t ≤ s := by
  refine ⟨20, 60, 70, DAC_TMCB_eq, DAC_TMODTIME_eq, DAC_SSTIME_eq, rfl, rfl, rfl,
    ?_, ?_, ?_, by norm_num, by norm_num⟩ <;>
    norm_num [DAC_CBLANK_TIME, DAC_T_RESET, DAC_T_SETTLING, FDAC, AUX_FREQUENCY]

/-! ## Range of the values under the casts -/

/-- C14 (evaluation of the code): the real value under the `(uint16_t)` cast is
non-negative and below `65536` for `DAC_MIN`, `DAC_MAX`, `DAC_SLOPE_RATE`, `DAC_TMCB`,
`DAC_TMODTIME`, `DAC_SSTIME`, `PWM_PERIOD`, `MAX_DUTY_CYCLE`, `SLP_TRIG_STOP`,
`PWM_LEB_PERIOD`, `PWM_MSTR_PHASE_SHIFT`, `PWM_AUX_PHASE_SHIFT`, `VOUT_ADCTRIG`,
`SLP_TRIG_START`, `V_OUT_REF`, `MAIN_EXEC_PER`, `REF_STEP`, `V_REF_MIN` and
`V_REF_MAX`; but the values under the casts of `POD`, `RPER` and `PGD` are negative
(they lie in `(-1, 0)`, so each of these macros still converts to `0`). -/
theorem cast_arguments_in_range_except_startup_ticks :
    (inU16Range (DAC_MINIMUM / DAC_GRAN) ∧ inU16Range (DAC_MAXIMUM / DAC_GRAN) ∧
      inU16Range ((16.0 * (SLEW_RATE / DAC_GRAN) / (1.0e-6 / DACCLK)) + 1.0) ∧
      inU16Range ((DAC_CBLANK_TIME * FDAC) / 2.0) ∧
      inU16Range ((DAC_T_RESET * FDAC) / 2.0) ∧
      inU16Range ((DAC_T_SETTLING * FDAC) / 2.0)) ∧
    (inU16Range (SWITCHING_PERIOD / PWM_RES) ∧
      (∃ p : ℕ, PWM_PERIOD = some p ∧ inU16Range ((p : ℚ) * MAXIMUM_DUTY_RATIO) ∧
        inU16Range ((p : ℚ) * SLOPE_STOP_DELAY)) ∧
      inU16Range (LEB_PERIOD / PWM_RES) ∧
      inU16Range (PWM_MASTER_PHASE_SHIFT / PWM_RES) ∧
      inU16Range (PWM_AUXILIARY_PHASE_SHIFT / PWM_RES) ∧
      inU16Range (VOUT_ADC_TRIGGER_DELAY / PWM_RES) ∧
      inU16Range (SLOPE_START_DELAY / PWM_RES)) ∧
    (inU16Range (VOUT_NOMINAL * VOUT_FB_GAIN / ADC_GRAN) ∧
      inU16Range ((CPU_FREQUENCY * MAIN_EXECUTION_PERIOD) - 1.0) ∧
      (∃ v r : ℕ, V_OUT_REF = some v ∧ RPER = some r ∧
        inU16Range ((v : ℚ) / ((r : ℚ) + 1.0))) ∧
      inU16Range (V_REF_MINIMUM * 1.0 / ADC_GRAN) ∧
      inU16Range (V_REF_MAXIMUM * 1.0 / ADC_GRAN)) ∧
    (¬ inU16Range ((POWER_ON_DELAY * MAIN_EXECUTION_PERIOD) - 1.0) ∧
      ¬ inU16Range ((RAMP_PERIOD * MAIN_EXECUTION_PERIOD) - 1.0) ∧
      ¬ inU16Range ((POWER_GOOD_DELAY * MAIN_EXECUTION_PERIOD) - 1.0)) ∧
    ((POWER_ON_DELAY * MAIN_EXECUTION_PERIOD) - 1.0 = -0.99995 ∧
      (RAMP_PERIOD * MAIN_EXECUTION_PERIOD) - 1.0 = -0.999995 ∧
      (POWER_GOOD_DELAY * MAIN_EXECUTION_PERIOD) - 1.0 = -0.99999) ∧
    (POD = some 0 ∧ RPER = some 0 ∧ PGD = some 0) := by
  refine ⟨⟨?_, ?_, ?_, ?_, ?_, ?_⟩, ⟨?_, ⟨1000, PWM_PERIOD_eq, ?_, ?_⟩, ?_, ?_, ?_, ?_, ?_⟩,
    ⟨?_, ?_, ⟨2762, 0, V_OUT_REF_eq, RPER_eq, ?_⟩, ?_, ?_⟩, ⟨?_, ?_, ?_⟩, ⟨?_, ?_, ?_⟩,
    ⟨POD_eq, RPER_eq, PGD_eq⟩⟩
  all_goals
    norm_num [inU16Range, DAC_MINIMUM, DAC_MAXIMUM, SLEW_RATE, DAC_GRAN, DAC_REF, DAC_RES,
      pow2, DACCLK, FDAC, AUX_FREQUENCY, DAC_CBLANK_TIME, DAC_T_RESET, DAC_T_SETTLING,
      SWITCHING_PERIOD, SWITCHING_FREQUENCY, PWM_RES, MAXIMUM_DUTY_RATIO, SLOPE_STOP_DELAY,
      LEB_PERIOD, PWM_MASTER_PHASE_SHIFT, PWM_AUXILIARY_PHASE_SHIFT, VOUT_ADC_TRIGGER_DELAY,
      SLOPE_START_DELAY, VOUT_NOMINAL, VOUT_FB_GAIN, VOUT_R1, VOUT_R2, ADC_GRAN, ADC_REF,
      ADC_RES, CPU_FREQUENCY, MAIN_EXECUTION_PERIOD, V_REF_MINIMUM, V_REF_MAXIMUM,
      POWER_ON_DELAY, RAMP_PERIOD, POWER_GOOD_DELAY]

/-! ## Slope register rounding, register ranges and window ordering -/

/-- C16 (evaluation of the code): `V_REF_MIN = 0` and `V_REF_MAX = 4096`, so
`0 ≤ V_REF_MIN ≤ V_REF_MAX` holds but `V_REF_MAX` exceeds the largest 12-bit ADC
reading `4095`, and so does `V_REF_DIFF = 4096`. -/
theorem V_REF_MAX_exceeds_adc_range :
    ∃ lo hi d : ℕ, V_REF_MIN = some lo ∧ V_REF_MAX = some hi ∧ V_REF_DIFF = some d ∧
      lo = 0 ∧ hi = 4096 ∧ d = 4096 ∧
      0 ≤ lo ∧ lo ≤ hi ∧ ¬ hi ≤ 4095 ∧ 0 ≤ d ∧ ¬ d ≤ 4095 ∧
      V_REF_MAXIMUM * 1.0 / ADC_GRAN = 4096 := by
  refine ⟨0, 4096, 4096, V_REF_MIN_eq, V_REF_MAX_eq, V_REF_DIFF_eq, rfl, rfl, rfl,
    by norm_num, by norm_num, by norm_num, by norm_num, by norm_num, ?_⟩
  norm_num [V_REF_MAXIMUM, ADC_GRAN, ADC_REF, ADC_RES, pow2]

/-- C18: the slope-compensation window is ordered consistently with blanking and the
duty ceiling: for the header's values
`PWM_LEB_PERIOD ≤ SLP_TRIG_START < SLP_TRIG_STOP ≤ MAX_DUTY_CYCLE < PWM_PERIOD`,
namely `40 ≤ 40 < 800 ≤ 800 < 1000`. -/
theorem slope_window_ordering :
    ∃ l a b d p : ℕ, PWM_LEB_PERIOD = some l ∧ SLP_TRIG_START = some a ∧
      SLP_TRIG_STOP = some b ∧ MAX_DUTY_CYCLE = some d ∧ PWM_PERIOD = some p ∧
      l = 40 ∧ a = 40 ∧ b = 800 ∧ d = 800 ∧ p = 1000 ∧
      l ≤ a ∧ a < b ∧ b ≤ d ∧ d < p := by
  refine ⟨40, 40, 800, 800, 1000, PWM_LEB_PERIOD_eq, SLP_TRIG_START_eq, SLP_TRIG_STOP_eq,
    MAX_DUTY_CYCLE_eq, PWM_PERIOD_eq, rfl, rfl, rfl, rfl, rfl, ?_, ?_, ?_, ?_⟩ <;> norm_num


/-! ## Facts about binary64 rounding -/

/-- C12 (evaluation of the code): with `AUX_FREQUENCY = 400 MHz` the PWM resolution
`PWM_RES = 1 / AUX_FREQUENCY` is `2.5` ns, not the `2` ns of the header's comments, and
`PWM_LEB_PERIOD = trunc(LEB_PERIOD / PWM_RES)` is `40`, not the `50` of the macro's
comment (`50 x 2ns = 100ns`); the `100` ns window is `40` ticks of `2.5` ns. -/
theorem PWM_LEB_PERIOD_contradicts_comment :
    ∃ n : ℕ, PWM_LEB_PERIOD = some n ∧ n = 40 ∧ n ≠ 50 ∧
      truncZero (LEB_PERIOD / PWM_RES) = (n : ℤ) ∧
      PWM_RES = 1 / AUX_FREQUENCY ∧ PWM_RES = 2.5e-9 ∧ PWM_RES ≠ 2e-9 ∧
      LEB_PERIOD = 100e-9 ∧ (50 : ℚ) * 2e-9 = LEB_PERIOD ∧ (n : ℚ) * PWM_RES = LEB_PERIOD ∧
      (n : ℚ) * 2e-9 ≠ LEB_PERIOD := by
  refine ⟨40, PWM_LEB_PERIOD_eq, rfl, by norm_num, ?_, ?_, ?_, ?_, ?_, ?_, ?_, ?_⟩
  · have := (castU16_eq_some_iff.mp PWM_LEB_PERIOD_eq).1
    simpa using this
  all_goals norm_num [LEB_PERIOD, PWM_RES, AUX_FREQUENCY]


/-! ## Evaluation of the macros in binary64 -/

end Globals
